import Mathlib

/-!
Verification of the conversational-agent response loop.

The definitions below are a shallow embedding of the agent subsystem:
`handle_response` and `generate` from `app/agent/core.py`,
`check_prompt_with_model_armor` / `check_response_with_model_armor` from
`app/agent/model_armor.py`, and the `chat` endpoint from
`app/routers/chat.py`.  External collaborators (the LLM backend, the
weather chain, the screening service) are modelled as oracles packaged in
an `Env`: the backend is a list of outcomes consumed one per call (an
`Except.error` entry, or exhaustion of the list, models a call that
raises), the weather tool is a function that may raise (`Except.error`)
or return an optional string, and each screening entry point is a
function from its request object to a verdict.  Every backend invocation
is recorded in a trace of `BackendCall` records so that theorems can
speak about which histories and tool lists were sent on which round.
-/

namespace AgentSpec

/-- Static metadata describing a callable the model may request,
mirroring `types.FunctionDeclaration` as built in `generate`. -/
structure FunctionDeclaration where
  name : String
  description : String
  required : List String
deriving DecidableEq

/-- Tool entry of the generation configuration: either the Vertex RAG
retrieval tool or a function-declaration tool. -/
inductive Tool where
  | retrieval (rag_corpus : String)
  | functionDecls (declarations : List FunctionDeclaration)
deriving DecidableEq

/-- Clean function-call payload, mirroring `types.FunctionCall`: exactly
the fields name, args and id.  `args` is optional as in the API. -/
structure FunctionCall where
  name : String
  args : Option (List (String × String))
  id : Option String
deriving DecidableEq

/-- Function-result payload, mirroring `types.FunctionResponse`.  The
`response` field is the dict passed by the code; its values are optional
strings because the tool output may be absent. -/
structure FunctionResponse where
  name : String
  response : List (String × Option String)
  id : Option String
deriving DecidableEq

/-- Content unit of a history turn: text, a function call, or a
function result. -/
inductive Part where
  | text (s : String)
  | functionCall (fc : FunctionCall)
  | functionResponse (fr : FunctionResponse)
deriving DecidableEq

/-- One role-tagged turn of the conversation history, mirroring
`types.Content`. -/
structure Content where
  role : String
  parts : List Part
deriving DecidableEq

/-- Raw function-call object as it arrives from the model.  Besides the
three meaningful fields it may carry extraneous fields (`extra`), which
the sanitation step in `handle_response` must discard. -/
structure RawFunctionCall where
  name : String
  args : Option (List (String × String))
  id : Option String
  extra : List (String × String)
deriving DecidableEq

/-- Raw part of a model response candidate: optional text and an
optional function call. -/
structure RawPart where
  text : Option String
  function_call : Option RawFunctionCall
deriving DecidableEq

/-- Content of a response candidate. -/
structure RawContent where
  parts : List RawPart
deriving DecidableEq

/-- One candidate of a model response. -/
structure Candidate where
  content : Option RawContent
deriving DecidableEq

/-- Model response: candidates plus the aggregated `.text` accessor,
which is optional (and may be the empty string, which Python treats as
falsy). -/
structure Response where
  candidates : List Candidate
  text : Option String
deriving DecidableEq

/-- Record of one `generate_content` invocation: the conversation
history and the active tool list passed to the backend. -/
structure BackendCall where
  contents : List Content
  tools : List Tool
deriving DecidableEq

/-- Verdict of the Model Armor screening service, mirroring
`modelarmor_v1.FilterMatchState`. -/
inductive FilterMatchState where
  | FILTER_MATCH_STATE_UNSPECIFIED
  | NO_MATCH_FOUND
  | MATCH_FOUND
deriving DecidableEq

/-- Sanitization result carried by a screening response. -/
structure SanitizationResult where
  filter_match_state : FilterMatchState
deriving DecidableEq

/-- Response object of a screening call. -/
structure SanitizeOutcome where
  sanitization_result : SanitizationResult
deriving DecidableEq

/-- Request for prompt screening: the text travels in the
`user_prompt_data` field. -/
structure SanitizeUserPromptRequest where
  name : String
  user_prompt_data : String
deriving DecidableEq

/-- Request for response screening: the text travels in the
`model_response_data` field. -/
structure SanitizeModelResponseRequest where
  name : String
  model_response_data : String
deriving DecidableEq

/-- Resource name of a template, mirroring
`client.template_path(project, location, template)`. -/
def template_path (project location template : String) : String :=
  "projects/" ++ project ++ "/locations/" ++ location ++ "/templates/" ++ template

/-- Embedding of `check_prompt_with_model_armor` from
`app/agent/model_armor.py`.  The external service is the
`sanitize_user_prompt` oracle. -/
def check_prompt_with_model_armor
    (sanitize_user_prompt : SanitizeUserPromptRequest → SanitizeOutcome)
    (prompt project_id model_armor_location template_id : String) : Bool :=
  let template_name := template_path project_id model_armor_location template_id
  let ma_request : SanitizeUserPromptRequest :=
    SanitizeUserPromptRequest.mk template_name prompt
  let ma_response := sanitize_user_prompt ma_request
  if ma_response.sanitization_result.filter_match_state = FilterMatchState.MATCH_FOUND then
    false
  else
    true

/-- Embedding of `check_response_with_model_armor` from
`app/agent/model_armor.py`.  The external service is the
`sanitize_model_response` oracle. -/
def check_response_with_model_armor
    (sanitize_model_response : SanitizeModelResponseRequest → SanitizeOutcome)
    (model_response project_id model_armor_location template_id : String) : Bool :=
  let template_name := template_path project_id model_armor_location template_id
  let ma_request : SanitizeModelResponseRequest :=
    SanitizeModelResponseRequest.mk template_name model_response
  let ma_response := sanitize_model_response ma_request
  if ma_response.sanitization_result.filter_match_state = FilterMatchState.MATCH_FOUND then
    false
  else
    true

/-- Configuration fields of `app/config.py` consumed by the agent. -/
structure Settings where
  google_api_key : String
  project_id : String
  location : String
  model_armor_location : String
  model_name : String
  model_armor_template_id : String
  model_armor_response_template_id : String
  rag_corpus : String
  noaa_user_agent : String
deriving DecidableEq

/-- External world of one request: the two screening entry points, the
weather chain (`get_weather_from_city_state`, which receives the
optional city and state extracted from the call args and either raises
or returns an optional forecast string), and the LLM backend as the
list of outcomes of successive `generate_content` calls. -/
structure Env where
  sanitize_user_prompt : SanitizeUserPromptRequest → SanitizeOutcome
  sanitize_model_response : SanitizeModelResponseRequest → SanitizeOutcome
  get_weather_from_city_state : Option String → Option String → Except Unit (Option String)
  backend : List (Except Unit Response)

/-- Dictionary lookup, mirroring Python's `dict.get`. -/
def dictGet (args : List (String × String)) (key : String) : Option String :=
  (args.find? (fun kv => kv.1 == key)).map (fun kv => kv.2)

/-- Scan of the ordered parts for the first one whose `function_call`
field is set, returning that function call (the for-loop with `break` in
`handle_response`). -/
def findFunctionCall : List RawPart → Option RawFunctionCall
  | [] => none
  | part :: rest =>
    match part.function_call with
    | some function_obj => some function_obj
    | none => findFunctionCall rest

/-- Function call selected by `handle_response`: the first
function-call part of the first candidate's content, if any (the
guard `response.candidates and response.candidates[0].content and
response.candidates[0].content.parts` followed by the scan). -/
def functionCallOf (response : Response) : Option RawFunctionCall :=
  match response.candidates with
  | [] => none
  | cand :: _ =>
    match cand.content with
    | none => none
    | some content => findFunctionCall content.parts

/-- Final-answer extraction: `if response.text: return response.text`
followed by `return None`; the empty string is falsy in Python. -/
def truthyText : Option String → Option String
  | none => none
  | some s => if s = "" then none else some s

/-- Sanitized model turn built by `handle_response`: a fresh
function-call part holding exactly name, args and id of the raw
function object, with role `model`. -/
def sanitized_model_turn (function_obj : RawFunctionCall) (call_id : Option String) : Content :=
  Content.mk "model"
    [Part.functionCall (FunctionCall.mk function_obj.name function_obj.args call_id)]

/-- Tool result part built by `handle_response`: the tool output is
wrapped under the fixed key `content`, and the call id is echoed. -/
def make_result_part (result_output : Option String) (call_id : Option String) : Part :=
  Part.functionResponse
    (FunctionResponse.mk "get_weather_from_city_state" [("content", result_output)] call_id)

/-- Tool turn wrapping a result part with role `tool`. -/
def tool_turn (result_part : Part) : Content :=
  Content.mk "tool" [result_part]

/-- History-builder operation appending the sanitized model turn. -/
def appendModelToolCall (contents : List Content) (function_obj : RawFunctionCall)
    (call_id : Option String) : List Content :=
  contents ++ [sanitized_model_turn function_obj call_id]

/-- History-builder operation appending the tool turn. -/
def appendToolResult (contents : List Content) (result_part : Part) : List Content :=
  contents ++ [tool_turn result_part]

/-- Outcome of inspecting one model response in `handle_response`
before any backend re-invocation: a final (possibly absent) text, a
failed tool round (no result part was produced), or a successful tool
round carrying the two turns to append and the shrunk tool list. -/
inductive StepResult where
  | finalText (result : Option String)
  | failed
  | toolRound (model_turn : Content) (tool_response_turn : Content) (shrunk_tools : List Tool)
deriving DecidableEq

/-- Tool-executor dispatch of `handle_response` (lines 62-90 of
`core.py`): when the requested name is the weather tool, extract the
optional city and state from the args and run the weather chain; a
raised exception (including the one raised by `args.get` when args are
absent) leaves `result_part` unset; otherwise the result part wraps the
tool output under `content` with the echoed call id.  An unknown tool
name also produces no result part. -/
def run_weather_tool (weather : Option String → Option String → Except Unit (Option String))
    (function_obj : RawFunctionCall) : Option Part :=
  if function_obj.name = "get_weather_from_city_state" then
    match function_obj.args with
    | none => none
    | some args =>
      match weather (dictGet args "city") (dictGet args "state") with
      | Except.error _ => none
      | Except.ok result_output => some (make_result_part result_output function_obj.id)
  else
    none

/-- Decision logic of one round of `handle_response`, covering lines
40-105 of `core.py`: find the first function-call part; with none,
return the truthy text; otherwise run the tool dispatch and either fail
(no result part) or produce the sanitized model turn, the tool turn,
and the tool list with its first entry removed
(`config.tools = config.tools[1:]`). -/
def respond_step (weather : Option String → Option String → Except Unit (Option String))
    (response : Response) (tools : List Tool) : StepResult :=
  match functionCallOf response with
  | none => StepResult.finalText (truthyText response.text)
  | some function_obj =>
    match run_weather_tool weather function_obj with
    | none => StepResult.failed
    | some result_part =>
      StepResult.toolRound (sanitized_model_turn function_obj function_obj.id)
        (tool_turn result_part) (tools.drop 1)

/-- Embedding of `handle_response` from `core.py`.  The backend list
supplies the outcome of each successive `generate_content` call inside
the recursion; an `Except.error` entry or an exhausted list models the
call raising, which the code turns into a `None` return.  The returned
triple is the final result, the final history, and the trace of backend
invocations made by this call (each recorded with the history and tool
list passed). -/
def handle_response (weather : Option String → Option String → Except Unit (Option String)) :
    List (Except Unit Response) → Response → List Content → List Tool →
      Option String × List Content × List BackendCall
  | [], response, contents, tools =>
    match respond_step weather response tools with
    | StepResult.finalText result => (result, contents, [])
    | StepResult.failed => (none, contents, [])
    | StepResult.toolRound model_turn tool_response_turn shrunk =>
      let contents2 := contents ++ [model_turn, tool_response_turn]
      (none, contents2, [BackendCall.mk contents2 shrunk])
  | outcome :: rest, response, contents, tools =>
    match respond_step weather response tools with
    | StepResult.finalText result => (result, contents, [])
    | StepResult.failed => (none, contents, [])
    | StepResult.toolRound model_turn tool_response_turn shrunk =>
      let contents2 := contents ++ [model_turn, tool_response_turn]
      match outcome with
      | Except.error _ => (none, contents2, [BackendCall.mk contents2 shrunk])
      | Except.ok next_response =>
        let r := handle_response weather rest next_response contents2 shrunk
        (r.1, r.2.1, BackendCall.mk contents2 shrunk :: r.2.2)

/-- System-instruction text composed by `generate` (verbatim from
`core.py`); it is concatenated into `enhanced_user_query` but that
variable is never used afterwards. -/
def system_instructions : String :=
  "You are a helpful AI assistant with access to weather information and knowledge retrieval capabilities for the Alaska Department of Snow.\n  When users ask about weather, use the get_weather_from_city_state function to get accurate, current forecasts.\n  For other questions, you can search through your knowledge base to provide helpful information.\n\n  RULES:\n  1. if a user asks about anything other than a weather forecast in a City and State, snow, or Alaska Department of Snow, respond with \"I'm sorry I cannot help you with that.\"\n  2. Limit your final response to 240 characters or less.\n  3. Add the relevant hash tag in ALL CAPITAL LETTERS, #FORECAST, #ALASKA_DS, #USEANOTHERCHATBOT\n\n  User Query:\n  "

/-- Composition `system_instructions + user_query` performed by
`generate` and then never used. -/
def enhanced_user_query (user_query : String) : String :=
  system_instructions ++ user_query

/-- Weather function declaration defined in `generate`. -/
def weather_tool_declaration : FunctionDeclaration :=
  FunctionDeclaration.mk "get_weather_from_city_state"
    "Retrieves the current weather forecast for a given city and state."
    ["city", "state"]

/-- Function-calling tool wrapping the weather declaration. -/
def x_weather_tool : Tool :=
  Tool.functionDecls [weather_tool_declaration]

/-- Retrieval (RAG) tool built from the configured corpus. -/
def retrieval_tool (settings : Settings) : Tool :=
  Tool.retrieval settings.rag_corpus

/-- Combined tool list `[retrieval_tool, x_weather_tool]` placed in the
generation configuration. -/
def all_tools (settings : Settings) : List Tool :=
  [retrieval_tool settings, x_weather_tool]

/-- Embedding of `generate` from `core.py`, returning the final result
together with the trace of all backend invocations.  The initial
history is a single user turn holding the raw query; the Model Armor
prompt check runs before any backend call; the initial
`generate_content` outcome is the head of the backend list; a falsy
final response short-circuits to `None` before the response check. -/
def generate (env : Env) (settings : Settings) (user_query : String) :
    Option String × List BackendCall :=
  let contents : List Content := [Content.mk "user" [Part.text user_query]]
  if check_prompt_with_model_armor env.sanitize_user_prompt user_query settings.project_id
      settings.model_armor_location settings.model_armor_template_id = false then
    (none, [])
  else
    let initial_call := BackendCall.mk contents (all_tools settings)
    match env.backend with
    | [] => (none, [initial_call])
    | Except.error _ :: _ => (none, [initial_call])
    | Except.ok initial_response :: rest =>
      let r := handle_response env.get_weather_from_city_state rest initial_response contents
        (all_tools settings)
      let trace := initial_call :: r.2.2
      match r.1 with
      | none => (none, trace)
      | some final_response =>
        if final_response = "" then (none, trace)
        else if check_response_with_model_armor env.sanitize_model_response final_response
            settings.project_id settings.model_armor_location
            settings.model_armor_response_template_id then
          (some final_response, trace)
        else (none, trace)

/-- Body of the chat endpoint's reply, mirroring `ChatResponse` from
`app/models.py`. -/
structure ChatResponse where
  response : Option String
  blocked : Bool
  blocked_reason : Option String
deriving DecidableEq

/-- Embedding of the `chat` endpoint from `app/routers/chat.py`: call
`generate` and map a `None` result to the fixed blocked reply and a
text result to an unblocked reply. -/
def chat (env : Env) (settings : Settings) (message : String) : ChatResponse :=
  match (generate env settings message).1 with
  | none =>
    ChatResponse.mk none true (some "Response was blocked by Model Armor for safety reasons")
  | some result => ChatResponse.mk (some result) false none

/-- Call identifier carried by a history part, when the part is a
function call or function result. -/
def partCallId : Part → Option (Option String)
  | Part.text _ => none
  | Part.functionCall fc => some fc.id
  | Part.functionResponse fr => some fr.id

/-- Concrete settings instance used by witnesses. -/
def demo_settings : Settings :=
  Settings.mk "key" "proj" "us-central1" "us" "gemini-2.5-pro" "lab-five-query-template"
    "ma-response-filter" "corpus" "WeatherChatbot/1.0"

/-- Screening outcome that allows the text. -/
def allow_outcome : SanitizeOutcome :=
  SanitizeOutcome.mk (SanitizationResult.mk FilterMatchState.NO_MATCH_FOUND)

/-- Screening outcome that blocks the text. -/
def block_outcome : SanitizeOutcome :=
  SanitizeOutcome.mk (SanitizationResult.mk FilterMatchState.MATCH_FOUND)

/-- Backend response carrying a plain text answer and no function
call. -/
def text_response : Response :=
  Response.mk [Candidate.mk (some (RawContent.mk [RawPart.mk (some "Sunny") none]))]
    (some "Sunny")

/-- Raw weather function call as the model would issue it. -/
def demo_function_call : RawFunctionCall :=
  RawFunctionCall.mk "get_weather_from_city_state"
    (some [("city", "Denver"), ("state", "CO")]) (some "abc") []

/-- Backend response whose first candidate carries the weather function
call. -/
def demo_fc_response : Response :=
  Response.mk [Candidate.mk (some (RawContent.mk [RawPart.mk none (some demo_function_call)]))]
    none

/-- Environment in which the prompt is blocked by screening. -/
def env_blocked : Env :=
  Env.mk (fun _ => block_outcome) (fun _ => allow_outcome) (fun _ _ => Except.error ()) []

/-- Environment in which the backend immediately answers with text. -/
def env_text : Env :=
  Env.mk (fun _ => allow_outcome) (fun _ => allow_outcome) (fun _ _ => Except.error ())
    [Except.ok text_response]

/-- Environment with one successful weather tool round followed by a
text answer. -/
def env_tool : Env :=
  Env.mk (fun _ => allow_outcome) (fun _ => allow_outcome)
    (fun _ _ => Except.ok (some "Forecast: Clear"))
    [Except.ok demo_fc_response, Except.ok text_response]

/-- Weather executor that returns no result without raising (the shape
`get_weather_from_city_state` takes when, for example, geocoding
returns zero results). -/
def cex_weather_no_result : Option String → Option String → Except Unit (Option String) :=
  fun _ _ => Except.ok none

/-- Backend response used after the no-result tool round. -/
def cex_followup_response : Response :=
  Response.mk [] (some "Clear skies")

/-- History and tool list recorded by the round-1 backend call of
`env_tool`. -/
def demo_round1_call : BackendCall :=
  BackendCall.mk
    [Content.mk "user" [Part.text "weather?"],
     sanitized_model_turn demo_function_call (some "abc"),
     tool_turn (make_result_part (some "Forecast: Clear") (some "abc"))]
    [x_weather_tool]

/-- Inversion for the tool dispatch: a produced result part always has
the `make_result_part` shape with the function object's own id. -/
theorem run_weather_tool_some
    (weather : Option String → Option String → Except Unit (Option String))
    (function_obj : RawFunctionCall) (rp : Part)
    (h : run_weather_tool weather function_obj = some rp) :
    ∃ result_output, rp = make_result_part result_output function_obj.id := by
  unfold run_weather_tool at h
  split at h
  · split at h
    · exact absurd h (by simp)
    · split at h
      · exact absurd h (by simp)
      · exact ⟨_, (Option.some.injEq _ _ ▸ h).symm⟩
  · exact absurd h (by simp)

/-- Forward characterization of a successful tool round at the step
level. -/
theorem respond_step_eq_toolRound
    (weather : Option String → Option String → Except Unit (Option String))
    (response : Response) (tools : List Tool) (function_obj : RawFunctionCall)
    (args : List (String × String)) (result_output : Option String)
    (hfc : functionCallOf response = some function_obj)
    (hname : function_obj.name = "get_weather_from_city_state")
    (hargs : function_obj.args = some args)
    (hok : weather (dictGet args "city") (dictGet args "state") = Except.ok result_output) :
    respond_step weather response tools
      = StepResult.toolRound (sanitized_model_turn function_obj function_obj.id)
          (tool_turn (make_result_part result_output function_obj.id)) (tools.drop 1) := by
  simp [respond_step, run_weather_tool, hfc, hname, hargs, hok]

/-- Inversion for a successful step: the shrunk tool list always drops
the first configured tool, and the two produced turns have the
sanitized-model-turn and tool-turn shapes. -/
theorem respond_step_toolRound_inv
    (weather : Option String → Option String → Except Unit (Option String))
    (response : Response) (tools : List Tool) (mt tt : Content) (ts : List Tool)
    (h : respond_step weather response tools = StepResult.toolRound mt tt ts) :
    ts = tools.drop 1
      ∧ (∃ function_obj : RawFunctionCall,
          functionCallOf response = some function_obj
            ∧ mt = sanitized_model_turn function_obj function_obj.id)
      ∧ (∃ result_output call_id, tt = tool_turn (make_result_part result_output call_id)) := by
  unfold respond_step at h
  split at h
  · exact absurd h (by simp)
  · rename_i fo hfc
    split at h
    · exact absurd h (by simp)
    · rename_i rp hw
      obtain ⟨out, hout⟩ := run_weather_tool_some weather fo rp hw
      injection h with h1 h2 h3
      exact ⟨h3.symm, ⟨fo, hfc, h1.symm⟩, ⟨out, fo.id, by rw [← h2, hout]⟩⟩

/-- Scanning past parts that carry no function call finds the same
function call. -/
theorem findFunctionCall_append (pre l : List RawPart)
    (hpre : ∀ q ∈ pre, q.function_call = none) :
    findFunctionCall (pre ++ l) = findFunctionCall l := by
  induction pre with
  | nil => rfl
  | cons q qs ih =>
    have hq : q.function_call = none := hpre q (by simp)
    simp only [List.cons_append, findFunctionCall, hq]
    exact ih (fun x hx => hpre x (by simp [hx]))

/-- The loop's behavior depends on the model response only through
`respond_step`. -/
theorem handle_response_resp_congr
    (weather : Option String → Option String → Except Unit (Option String))
    (backend : List (Except Unit Response)) (contents : List Content) (tools : List Tool)
    (r1 r2 : Response)
    (h : respond_step weather r1 tools = respond_step weather r2 tools) :
    handle_response weather backend r1 contents tools
      = handle_response weather backend r2 contents tools := by
  cases backend <;> simp only [handle_response] <;> rw [h]

/-- Tool list recorded at position `k` of the loop's backend trace:
starting from `tools`, every recorded call has dropped one more leading
entry, so position `k` carries `tools.drop (k + 1)`. -/
theorem handle_response_trace_tools
    (weather : Option String → Option String → Except Unit (Option String)) :
    ∀ (backend : List (Except Unit Response)) (response : Response) (contents : List Content)
      (tools : List Tool) (k : Nat) (c : BackendCall),
      ((handle_response weather backend response contents tools).2.2).get? k = some c →
        c.tools = tools.drop (k + 1) := by
  intro backend
  induction backend with
  | nil =>
    intro response contents tools k c h
    cases hstep : respond_step weather response tools with
    | finalText r => simp [handle_response, hstep] at h
    | failed => simp [handle_response, hstep] at h
    | toolRound mt tt shrunk =>
      simp only [handle_response, hstep] at h
      cases k with
      | zero =>
        obtain ⟨hts, -, -⟩ := respond_step_toolRound_inv weather response tools mt tt shrunk hstep
        simp only [List.get?] at h
        cases h
        simpa using hts
      | succ k => simp [List.get?] at h
  | cons outcome rest ih =>
    intro response contents tools k c h
    cases hstep : respond_step weather response tools with
    | finalText r => simp [handle_response, hstep] at h
    | failed => simp [handle_response, hstep] at h
    | toolRound mt tt shrunk =>
      obtain ⟨hts, -, -⟩ := respond_step_toolRound_inv weather response tools mt tt shrunk hstep
      cases outcome with
      | error e =>
        simp only [handle_response, hstep] at h
        cases k with
        | zero =>
          simp only [List.get?] at h
          cases h
          simpa using hts
        | succ k => simp [List.get?] at h
      | ok next_response =>
        simp only [handle_response, hstep] at h
        cases k with
        | zero =>
          simp only [List.get?] at h
          cases h
          simpa using hts
        | succ k =>
          simp only [List.get?] at h
          have := ih next_response (contents ++ [mt, tt]) shrunk k c h
          rw [this, hts, List.drop_drop, Nat.add_comm]

/-- Sanitized model turns carry no text part. -/
theorem sanitized_model_turn_no_text (function_obj : RawFunctionCall)
    (call_id : Option String) :
    ∀ p ∈ (sanitized_model_turn function_obj call_id).parts, ∀ s, p ≠ Part.text s := by
  simp [sanitized_model_turn]

/-- Tool turns built from a result part carry no text part. -/
theorem tool_turn_make_result_no_text (result_output : Option String)
    (call_id : Option String) :
    ∀ p ∈ (tool_turn (make_result_part result_output call_id)).parts,
      ∀ s, p ≠ Part.text s := by
  simp [tool_turn, make_result_part]

/-- Every turn of every history recorded in the loop's backend trace is
either a turn of the starting history or a turn carrying no text part
(the loop only ever appends function-call and function-result
turns). -/
theorem handle_response_trace_turns
    (weather : Option String → Option String → Except Unit (Option String)) :
    ∀ (backend : List (Except Unit Response)) (response : Response) (contents : List Content)
      (tools : List Tool) (c : BackendCall),
      c ∈ (handle_response weather backend response contents tools).2.2 →
        ∀ turn ∈ c.contents, turn ∈ contents ∨ ∀ p ∈ turn.parts, ∀ s, p ≠ Part.text s := by
  intro backend
  induction backend with
  | nil =>
    intro response contents tools c hc turn hturn
    cases hstep : respond_step weather response tools with
    | finalText r => simp [handle_response, hstep] at hc
    | failed => simp [handle_response, hstep] at hc
    | toolRound mt tt shrunk =>
      obtain ⟨-, ⟨fo, -, hmt⟩, ⟨out, cid, htt⟩⟩ :=
        respond_step_toolRound_inv weather response tools mt tt shrunk hstep
      simp only [handle_response, hstep, List.mem_singleton] at hc
      subst hc
      rcases List.mem_append.mp hturn with hmem | hmem
      · exact Or.inl hmem
      · right
        simp only [List.mem_cons, List.not_mem_nil, or_false] at hmem
        rcases hmem with hmem | hmem
        · rw [hmem, hmt]; exact sanitized_model_turn_no_text fo fo.id
        · rw [hmem, htt]; exact tool_turn_make_result_no_text out cid
  | cons outcome rest ih =>
    intro response contents tools c hc turn hturn
    cases hstep : respond_step weather response tools with
    | finalText r => simp [handle_response, hstep] at hc
    | failed => simp [handle_response, hstep] at hc
    | toolRound mt tt shrunk =>
      obtain ⟨-, ⟨fo, -, hmt⟩, ⟨out, cid, htt⟩⟩ :=
        respond_step_toolRound_inv weather response tools mt tt shrunk hstep
      have hnew : ∀ t, t ∈ contents ++ [mt, tt] →
          t ∈ contents ∨ ∀ p ∈ t.parts, ∀ s, p ≠ Part.text s := by
        intro t ht
        rcases List.mem_append.mp ht with hmem | hmem
        · exact Or.inl hmem
        · right
          simp only [List.mem_cons, List.not_mem_nil, or_false] at hmem
          rcases hmem with hmem | hmem
          · rw [hmem, hmt]; exact sanitized_model_turn_no_text fo fo.id
          · rw [hmem, htt]; exact tool_turn_make_result_no_text out cid
      cases outcome with
      | error e =>
        simp only [handle_response, hstep, List.mem_singleton] at hc
        subst hc
        exact hnew turn hturn
      | ok next_response =>
        simp only [handle_response, hstep, List.mem_cons] at hc
        rcases hc with hc | hc
        · subst hc
          exact hnew turn hturn
        · rcases ih next_response (contents ++ [mt, tt]) shrunk c hc turn hturn with hmem | hno
          · exact hnew turn hmem
          · exact Or.inr hno

/-- Backend-invocation trace of `generate`: empty when the prompt is
blocked, otherwise the initial call on the raw-query history with the
full tool list, followed by the loop's trace. -/
theorem generate_trace_eq (env : Env) (settings : Settings) (user_query : String) :
    (generate env settings user_query).2
      = if check_prompt_with_model_armor env.sanitize_user_prompt user_query settings.project_id
            settings.model_armor_location settings.model_armor_template_id = false then
          ([] : List BackendCall)
        else
          match env.backend with
          | [] => [BackendCall.mk [Content.mk "user" [Part.text user_query]] (all_tools settings)]
          | Except.error _ :: _ =>
            [BackendCall.mk [Content.mk "user" [Part.text user_query]] (all_tools settings)]
          | Except.ok initial_response :: rest =>
            BackendCall.mk [Content.mk "user" [Part.text user_query]] (all_tools settings)
              :: (handle_response env.get_weather_from_city_state rest initial_response
                  [Content.mk "user" [Part.text user_query]] (all_tools settings)).2.2 := by
  simp only [generate]
  split
  · rfl
  · split
    · rfl
    · rfl
    · split
      · rfl
      · split
        · rfl
        · split <;> rfl

/-- C8: for every text and template, each screening entry point returns
false exactly when the external service's verdict is MATCH_FOUND and
true for any other verdict; a block verdict is a normal false return of
the (total) function, not an exception, and the prompt-screening and
response-screening entry points interpret the verdict identically. -/
theorem check_armor_false_iff_match_found
    (sup : SanitizeUserPromptRequest → SanitizeOutcome)
    (smr : SanitizeModelResponseRequest → SanitizeOutcome)
    (text project location tmpl : String) :
    check_prompt_with_model_armor sup text project location tmpl
        = decide ((sup (SanitizeUserPromptRequest.mk (template_path project location tmpl)
              text)).sanitization_result.filter_match_state
            ≠ FilterMatchState.MATCH_FOUND)
      ∧ check_response_with_model_armor smr text project location tmpl
        = decide ((smr (SanitizeModelResponseRequest.mk (template_path project location tmpl)
              text)).sanitization_result.filter_match_state
            ≠ FilterMatchState.MATCH_FOUND) := by
  constructor
  · cases h : (sup (SanitizeUserPromptRequest.mk (template_path project location tmpl)
        text)).sanitization_result.filter_match_state <;>
      simp [check_prompt_with_model_armor, h]
  · cases h : (smr (SanitizeModelResponseRequest.mk (template_path project location tmpl)
        text)).sanitization_result.filter_match_state <;>
      simp [check_response_with_model_armor, h]

/-- C9: the chat endpoint maps a text result of `generate` to an
unblocked reply carrying the text and no blocked reason, and every null
result of `generate` — whatever its cause — to the same blocked reply
with a fixed reason string. -/
theorem chat_maps_generate_result (env : Env) (settings : Settings) (message : String) :
    (∀ t, (generate env settings message).1 = some t →
        chat env settings message = ChatResponse.mk (some t) false none)
      ∧ ((generate env settings message).1 = none →
        chat env settings message
          = ChatResponse.mk none true
              (some "Response was blocked by Model Armor for safety reasons")) := by
  constructor
  · intro t h
    unfold chat
    rw [h]
  · intro h
    unfold chat
    rw [h]

/-- Witness for C9: a run whose answer is the text `Sunny` yields the
unblocked reply, and a prompt-blocked run yields the fixed blocked
reply. -/
theorem chat_maps_generate_result_witness :
    ((generate env_text demo_settings "hi").1 = some "Sunny"
      ∧ chat env_text demo_settings "hi" = ChatResponse.mk (some "Sunny") false none)
      ∧ ((generate env_blocked demo_settings "hi").1 = none
        ∧ chat env_blocked demo_settings "hi"
          = ChatResponse.mk none true
              (some "Response was blocked by Model Armor for safety reasons")) :=
  ⟨⟨by decide, (chat_maps_generate_result env_text demo_settings "hi").1 "Sunny" (by decide)⟩,
    ⟨by decide, (chat_maps_generate_result env_blocked demo_settings "hi").2 (by decide)⟩⟩

/-- C4: when prompt screening blocks the query, `generate` returns a
null result and the backend trace is empty — the LLM backend is never
called. -/
theorem generate_blocked_prompt_no_backend_call (env : Env) (settings : Settings)
    (user_query : String)
    (h : check_prompt_with_model_armor env.sanitize_user_prompt user_query settings.project_id
        settings.model_armor_location settings.model_armor_template_id = false) :
    generate env settings user_query = (none, []) := by
  simp [generate, h]

/-- Witness for C4: in the blocking environment the prompt check
returns false and `generate` makes no backend call. -/
theorem generate_blocked_prompt_no_backend_call_witness :
    (check_prompt_with_model_armor env_blocked.sanitize_user_prompt "hi"
        demo_settings.project_id demo_settings.model_armor_location
        demo_settings.model_armor_template_id = false)
      ∧ generate env_blocked demo_settings "hi" = (none, []) :=
  ⟨by decide, generate_blocked_prompt_no_backend_call env_blocked demo_settings "hi" (by decide)⟩

/-- C1: the backend call of round N carries the configured tool list
with its first N entries dropped, hence exactly
`initial_count - N` entries (truncated at 0): every tool round removes
the first entry of the configuration's tool list, regardless of which
tool was called, before re-invoking the backend. -/
theorem generate_tool_list_drop_per_round (env : Env) (settings : Settings)
    (user_query : String) (N : Nat) (c : BackendCall)
    (h : ((generate env settings user_query).2).get? N = some c) :
    c.tools = (all_tools settings).drop N
      ∧ c.tools.length = (all_tools settings).length - N := by
  suffices hs : c.tools = (all_tools settings).drop N by
    exact ⟨hs, by rw [hs, List.length_drop]⟩
  rw [generate_trace_eq] at h
  split at h
  · simp at h
  · split at h
    · cases N with
      | zero => simp only [List.get?] at h; cases h; rfl
      | succ n => simp [List.get?] at h
    · cases N with
      | zero => simp only [List.get?] at h; cases h; rfl
      | succ n => simp [List.get?] at h
    · cases N with
      | zero => simp only [List.get?] at h; cases h; rfl
      | succ n =>
        simp only [List.get?] at h
        exact handle_response_trace_tools _ _ _ _ _ n c h

/-- Witness for C1: in the one-tool-round run the round-1 backend call
exists and carries the tool list with its first entry (the retrieval
tool) dropped, length 2 - 1. -/
theorem generate_tool_list_drop_per_round_witness :
    ((generate env_tool demo_settings "weather?").2).get? 1 = some demo_round1_call
      ∧ (demo_round1_call.tools = (all_tools demo_settings).drop 1
        ∧ demo_round1_call.tools.length = (all_tools demo_settings).length - 1) :=
  ⟨by decide, generate_tool_list_drop_per_round env_tool demo_settings "weather?" 1
      demo_round1_call (by decide)⟩

/-- C7: a response without function-call part ends the loop: the
response's text is returned when present and non-empty, a null result
is returned when the text is absent or empty, and the terminal output
of `generate` is never the empty string. -/
theorem final_answer_text_or_null :
    (∀ (weather : Option String → Option String → Except Unit (Option String))
        (backend : List (Except Unit Response)) (response : Response)
        (contents : List Content) (tools : List Tool) (s : String),
      functionCallOf response = none → response.text = some s → s ≠ "" →
        handle_response weather backend response contents tools = (some s, contents, []))
      ∧ (∀ (weather : Option String → Option String → Except Unit (Option String))
          (backend : List (Except Unit Response)) (response : Response)
          (contents : List Content) (tools : List Tool),
        functionCallOf response = none →
          (response.text = none ∨ response.text = some "") →
            handle_response weather backend response contents tools = (none, contents, []))
      ∧ (∀ (env : Env) (settings : Settings) (user_query : String),
          (generate env settings user_query).1 ≠ some "") := by
  refine ⟨?_, ?_, ?_⟩
  · intro weather backend response contents tools s hfc htext hs
    have hstep : respond_step weather response tools = StepResult.finalText (some s) := by
      simp [respond_step, hfc, truthyText, htext, hs]
    cases backend <;> simp [handle_response, hstep]
  · intro weather backend response contents tools hfc htext
    have hstep : respond_step weather response tools = StepResult.finalText none := by
      rcases htext with h | h <;> simp [respond_step, hfc, truthyText, h]
    cases backend <;> simp [handle_response, hstep]
  · intro env settings user_query
    simp only [generate]
    split
    · simp
    · split
      · simp
      · simp
      · split
        · simp
        · split
          · simp
          · rename_i hfr
            split
            · simpa using hfr
            · simp

/-- Witness for C7: a pure-text response returns its text; a response
with neither function call nor text returns null; a complete run never
returns the empty string. -/
theorem final_answer_text_or_null_witness :
    (functionCallOf text_response = none
      ∧ handle_response (fun _ _ => Except.error ()) [] text_response [] []
          = (some "Sunny", [], []))
      ∧ handle_response (fun _ _ => Except.error ()) [] (Response.mk [] none) [] []
          = (none, [], [])
      ∧ (generate env_text demo_settings "hi").1 ≠ some "" :=
  ⟨⟨by decide,
      final_answer_text_or_null.1 (fun _ _ => Except.error ()) [] text_response [] [] "Sunny"
        (by decide) (by decide) (by decide)⟩,
    final_answer_text_or_null.2.1 (fun _ _ => Except.error ()) [] (Response.mk [] none) [] []
      (by decide) (Or.inl (by decide)),
    final_answer_text_or_null.2.2 env_text demo_settings "hi"⟩

/-- C2: the loop acts only on the first function-call part in part
order: with any function-call-free prefix before it, the parts after
the first function-call part — including further function-call parts —
are ignored, so the run equals the run on the response reduced to that
single part. -/
theorem first_function_call_part_only
    (weather : Option String → Option String → Except Unit (Option String))
    (backend : List (Except Unit Response)) (contents : List Content) (tools : List Tool)
    (pre rest : List RawPart) (p : RawPart) (txt : Option String)
    (hpre : ∀ q ∈ pre, q.function_call = none)
    (hp : p.function_call.isSome) :
    handle_response weather backend
        (Response.mk [Candidate.mk (some (RawContent.mk (pre ++ p :: rest)))] txt)
        contents tools
      = handle_response weather backend
          (Response.mk [Candidate.mk (some (RawContent.mk [p]))] txt) contents tools := by
  obtain ⟨fc, hfc⟩ := Option.isSome_iff_exists.mp hp
  apply handle_response_resp_congr
  have h1 : functionCallOf
      (Response.mk [Candidate.mk (some (RawContent.mk (pre ++ p :: rest)))] txt) = some fc := by
    simp only [functionCallOf]
    rw [findFunctionCall_append pre _ hpre]
    simp [findFunctionCall, hfc]
  have h2 : functionCallOf
      (Response.mk [Candidate.mk (some (RawContent.mk [p]))] txt) = some fc := by
    simp [functionCallOf, findFunctionCall, hfc]
  simp [respond_step, h1, h2]

/-- Second, distinct function call used to exercise the
multiple-tool-call scenario. -/
def second_function_call : RawFunctionCall :=
  RawFunctionCall.mk "lookup_knowledge_base" (some [("query", "snow")]) (some "def") []

/-- Witness for C2: a response holding a text part, the weather call
and a second, distinct function call behaves exactly like the response
reduced to the weather call alone. -/
theorem first_function_call_part_only_witness :
    (∀ q ∈ [RawPart.mk (some "hello") none], q.function_call = none)
      ∧ (RawPart.mk none (some demo_function_call)).function_call.isSome
      ∧ handle_response (fun _ _ => Except.ok (some "Forecast: Clear"))
          [Except.ok text_response]
          (Response.mk [Candidate.mk (some (RawContent.mk
            ([RawPart.mk (some "hello") none]
              ++ RawPart.mk none (some demo_function_call)
                :: [RawPart.mk none (some second_function_call)])))] none)
          [] []
        = handle_response (fun _ _ => Except.ok (some "Forecast: Clear"))
            [Except.ok text_response]
            (Response.mk [Candidate.mk (some (RawContent.mk
              [RawPart.mk none (some demo_function_call)]))] none)
            [] [] :=
  ⟨by decide, by decide,
    first_function_call_part_only (fun _ _ => Except.ok (some "Forecast: Clear"))
      [Except.ok text_response] [] []
      [RawPart.mk (some "hello") none] [RawPart.mk none (some second_function_call)]
      (RawPart.mk none (some demo_function_call)) none (by decide) (by decide)⟩

/-- Counterexample to C3 as stated: when the tool executor produces no
result without raising (here it returns `Except.ok none`, the shape
`get_weather_from_city_state` takes when geocoding returns zero
results), the loop does NOT return a null result and DOES make a
further backend call — it builds a result part whose `content` is null,
appends the synthetic tool result to history, re-invokes the backend
once more and returns that call's text. -/
theorem tool_no_result_still_calls_backend :
    run_weather_tool cex_weather_no_result demo_function_call
        = some (make_result_part none (some "abc"))
      ∧ (handle_response cex_weather_no_result [Except.ok cex_followup_response]
          demo_fc_response [] []).1 = some "Clear skies"
      ∧ (handle_response cex_weather_no_result [Except.ok cex_followup_response]
          demo_fc_response [] []).2.1
        = [sanitized_model_turn demo_function_call (some "abc"),
           tool_turn (make_result_part none (some "abc"))]
      ∧ ((handle_response cex_weather_no_result [Except.ok cex_followup_response]
          demo_fc_response [] []).2.2).length = 1 :=
  ⟨by decide, by decide, by decide, by decide⟩

/-- C3 amended: when the tool executor RAISES during a tool-call round,
the loop returns a null result, appends nothing to history, makes no
further backend call and does not retry.  (When the executor instead
returns no result without raising, the loop appends a function-result
part whose content is null and continues — see the counterexample.) -/
theorem tool_raise_aborts_without_backend_call
    (weather : Option String → Option String → Except Unit (Option String))
    (backend : List (Except Unit Response)) (response : Response)
    (contents : List Content) (tools : List Tool)
    (function_obj : RawFunctionCall) (args : List (String × String))
    (hfc : functionCallOf response = some function_obj)
    (hname : function_obj.name = "get_weather_from_city_state")
    (hargs : function_obj.args = some args)
    (herr : weather (dictGet args "city") (dictGet args "state") = Except.error ()) :
    handle_response weather backend response contents tools = (none, contents, []) := by
  have hstep : respond_step weather response tools = StepResult.failed := by
    simp [respond_step, run_weather_tool, hfc, hname, hargs, herr]
  cases backend <;> simp [handle_response, hstep]

/-- Witness for the amended C3: a raising weather executor makes the
loop return null with the history untouched and an empty backend
trace, although a further backend response was available. -/
theorem tool_raise_aborts_without_backend_call_witness :
    (functionCallOf demo_fc_response = some demo_function_call
      ∧ (fun (_ : Option String) (_ : Option String) =>
          (Except.error () : Except Unit (Option String)))
          (dictGet [("city", "Denver"), ("state", "CO")] "city")
          (dictGet [("city", "Denver"), ("state", "CO")] "state") = Except.error ())
      ∧ handle_response
          (fun _ _ => (Except.error () : Except Unit (Option String)))
          [Except.ok text_response] demo_fc_response
          [Content.mk "user" [Part.text "w"]] (all_tools demo_settings)
        = (none, [Content.mk "user" [Part.text "w"]], []) :=
  ⟨⟨by decide, rfl⟩,
    tool_raise_aborts_without_backend_call
      (fun _ _ => (Except.error () : Except Unit (Option String)))
      [Except.ok text_response] demo_fc_response
      [Content.mk "user" [Part.text "w"]] (all_tools demo_settings)
      demo_function_call [("city", "Denver"), ("state", "CO")]
      (by decide) (by decide) (by decide) rfl⟩

/-- C5: on every successful tool-call round, the history passed to the
next backend call extends the prior history with exactly two turns
whose parts carry, respectively, the call identifier of the model's
function call and the same identifier echoed on the function result —
equal by construction, and equal to `none` when the backend supplied no
identifier. -/
theorem tool_round_call_ids_equal
    (weather : Option String → Option String → Except Unit (Option String))
    (backend : List (Except Unit Response)) (response : Response)
    (contents : List Content) (tools : List Tool)
    (function_obj : RawFunctionCall) (args : List (String × String))
    (result_output : Option String)
    (hfc : functionCallOf response = some function_obj)
    (hname : function_obj.name = "get_weather_from_city_state")
    (hargs : function_obj.args = some args)
    (hok : weather (dictGet args "city") (dictGet args "state") = Except.ok result_output) :
    (((handle_response weather backend response contents tools).2.2).head?).map
        (fun call => (call.contents.drop contents.length).map
          (fun turn => turn.parts.map partCallId))
      = some [[some function_obj.id], [some function_obj.id]] := by
  have hstep := respond_step_eq_toolRound weather response tools function_obj args
    result_output hfc hname hargs hok
  have hdrop : ((contents ++ [sanitized_model_turn function_obj function_obj.id,
      tool_turn (make_result_part result_output function_obj.id)]).drop contents.length)
      = [sanitized_model_turn function_obj function_obj.id,
         tool_turn (make_result_part result_output function_obj.id)] := List.drop_left _ _
  cases backend with
  | nil =>
    simp [handle_response, hstep, hdrop, sanitized_model_turn, tool_turn, make_result_part,
      partCallId]
  | cons outcome rest =>
    cases outcome <;>
      simp [handle_response, hstep, hdrop, sanitized_model_turn, tool_turn, make_result_part,
        partCallId]

/-- Witness for C5: in the concrete tool round the two appended turns
both carry the identifier `abc`. -/
theorem tool_round_call_ids_equal_witness :
    (functionCallOf demo_fc_response = some demo_function_call
      ∧ demo_function_call.name = "get_weather_from_city_state")
      ∧ (((handle_response (fun _ _ => Except.ok (some "Forecast: Clear"))
            [Except.ok text_response] demo_fc_response
            [Content.mk "user" [Part.text "w"]] (all_tools demo_settings)).2.2).head?).map
          (fun call => (call.contents.drop
              [Content.mk "user" [Part.text "w"]].length).map
            (fun turn => turn.parts.map partCallId))
        = some [[some demo_function_call.id], [some demo_function_call.id]] :=
  ⟨⟨by decide, by decide⟩,
    tool_round_call_ids_equal (fun _ _ => Except.ok (some "Forecast: Clear"))
      [Except.ok text_response] demo_fc_response
      [Content.mk "user" [Part.text "w"]] (all_tools demo_settings)
      demo_function_call [("city", "Denver"), ("state", "CO")] (some "Forecast: Clear")
      (by decide) (by decide) (by decide) rfl⟩

/-- C6: on every successful tool-call round the next backend call's
history is the prior history (unchanged, as a prefix) extended by
`appendModelToolCall` and `appendToolResult`: a model turn holding a
freshly built function-call part with exactly the fields name, args and
call identifier, and a tool turn wrapping the tool output under the
fixed key `content` with role `tool`. -/
theorem tool_round_appends_clean_turns
    (weather : Option String → Option String → Except Unit (Option String))
    (backend : List (Except Unit Response)) (response : Response)
    (contents : List Content) (tools : List Tool)
    (function_obj : RawFunctionCall) (args : List (String × String))
    (result_output : Option String)
    (hfc : functionCallOf response = some function_obj)
    (hname : function_obj.name = "get_weather_from_city_state")
    (hargs : function_obj.args = some args)
    (hok : weather (dictGet args "city") (dictGet args "state") = Except.ok result_output) :
    (((handle_response weather backend response contents tools).2.2).head?).map
        (fun call => call.contents)
      = some (appendToolResult (appendModelToolCall contents function_obj function_obj.id)
          (make_result_part result_output function_obj.id))
      ∧ appendToolResult (appendModelToolCall contents function_obj function_obj.id)
          (make_result_part result_output function_obj.id)
        = contents ++
            [Content.mk "model"
              [Part.functionCall
                (FunctionCall.mk function_obj.name function_obj.args function_obj.id)],
             Content.mk "tool"
              [Part.functionResponse
                (FunctionResponse.mk "get_weather_from_city_state"
                  [("content", result_output)] function_obj.id)]] := by
  have hstep := respond_step_eq_toolRound weather response tools function_obj args
    result_output hfc hname hargs hok
  constructor
  · cases backend with
    | nil =>
      simp [handle_response, hstep, appendToolResult, appendModelToolCall]
    | cons outcome rest =>
      cases outcome <;>
        simp [handle_response, hstep, appendToolResult, appendModelToolCall]
  · simp [appendToolResult, appendModelToolCall, sanitized_model_turn, tool_turn,
      make_result_part]

/-- Witness for C6: the concrete tool round records exactly the prior
history plus the clean model turn and the wrapped tool turn. -/
theorem tool_round_appends_clean_turns_witness :
    (functionCallOf demo_fc_response = some demo_function_call
      ∧ demo_function_call.args = some [("city", "Denver"), ("state", "CO")])
      ∧ ((((handle_response (fun _ _ => Except.ok (some "Forecast: Clear"))
            [Except.ok text_response] demo_fc_response
            [Content.mk "user" [Part.text "w"]] (all_tools demo_settings)).2.2).head?).map
          (fun call => call.contents)
        = some (appendToolResult
            (appendModelToolCall [Content.mk "user" [Part.text "w"]] demo_function_call
              demo_function_call.id)
            (make_result_part (some "Forecast: Clear") demo_function_call.id))
        ∧ appendToolResult
            (appendModelToolCall [Content.mk "user" [Part.text "w"]] demo_function_call
              demo_function_call.id)
            (make_result_part (some "Forecast: Clear") demo_function_call.id)
          = [Content.mk "user" [Part.text "w"]] ++
              [Content.mk "model"
                [Part.functionCall
                  (FunctionCall.mk demo_function_call.name demo_function_call.args
                    demo_function_call.id)],
               Content.mk "tool"
                [Part.functionResponse
                  (FunctionResponse.mk "get_weather_from_city_state"
                    [("content", some "Forecast: Clear")] demo_function_call.id)]]) :=
  ⟨⟨by decide, by decide⟩,
    tool_round_appends_clean_turns (fun _ _ => Except.ok (some "Forecast: Clear"))
      [Except.ok text_response] demo_fc_response
      [Content.mk "user" [Part.text "w"]] (all_tools demo_settings)
      demo_function_call [("city", "Denver"), ("state", "CO")] (some "Forecast: Clear")
      (by decide) (by decide) (by decide) rfl⟩

/-- Text parts of the initial single-turn history carry exactly the raw
user query. -/
theorem user_turn_text_eq (user_query : String) (turn : Content)
    (hturn : turn ∈ [Content.mk "user" [Part.text user_query]])
    (p : Part) (hp : p ∈ turn.parts) (s : String) (hps : p = Part.text s) :
    s = user_query := by
  simp only [List.mem_singleton] at hturn
  subst hturn
  simp only [List.mem_singleton] at hp
  subst hp
  injection hps with h
  exact h.symm

set_option maxRecDepth 10000 in
/-- C10: the history of the initial backend call is exactly one user
turn whose single text part is the raw user query verbatim; every text
part of every history ever sent to the backend is that raw query; and
in particular the `enhanced_user_query` composed from the
system-instruction prefix differs from the raw query and is therefore
never included in any backend call. -/
theorem initial_history_is_raw_query (env : Env) (settings : Settings) (user_query : String) :
    (∀ c, ((generate env settings user_query).2).head? = some c →
        c.contents = [Content.mk "user" [Part.text user_query]])
      ∧ (∀ c ∈ (generate env settings user_query).2, ∀ turn ∈ c.contents,
          ∀ p ∈ turn.parts, ∀ s, p = Part.text s → s = user_query)
      ∧ enhanced_user_query user_query ≠ user_query := by
  refine ⟨?_, ?_, ?_⟩
  · intro c hc
    rw [generate_trace_eq] at hc
    split at hc
    · simp at hc
    · split at hc
      · simp only [List.head?] at hc; cases hc; rfl
      · simp only [List.head?] at hc; cases hc; rfl
      · simp only [List.head?] at hc; cases hc; rfl
  · intro c hc turn hturn p hp s hps
    rw [generate_trace_eq] at hc
    split at hc
    · simp at hc
    · split at hc
      · simp only [List.mem_singleton] at hc
        subst hc
        exact user_turn_text_eq user_query turn hturn p hp s hps
      · simp only [List.mem_singleton] at hc
        subst hc
        exact user_turn_text_eq user_query turn hturn p hp s hps
      · simp only [List.mem_cons] at hc
        rcases hc with rfl | hc
        · exact user_turn_text_eq user_query turn hturn p hp s hps
        · rcases handle_response_trace_turns _ _ _ _ _ c hc turn hturn with hmem | hno
          · exact user_turn_text_eq user_query turn hmem p hp s hps
          · exact absurd hps (hno p hp s)
  · intro hcon
    have hlen := congrArg String.length hcon
    rw [enhanced_user_query, String.length_append] at hlen
    have hpos : 0 < system_instructions.length := by decide
    omega

/-- Witness for C10: in the one-tool-round run the initial call's
history is the bare user turn, the round-1 call's text parts all equal
the raw query, and the enhanced query differs from the raw query. -/
theorem initial_history_is_raw_query_witness :
    ((generate env_tool demo_settings "weather?").2).head?
        = some (BackendCall.mk [Content.mk "user" [Part.text "weather?"]]
            (all_tools demo_settings))
      ∧ (BackendCall.mk [Content.mk "user" [Part.text "weather?"]]
          (all_tools demo_settings)).contents
        = [Content.mk "user" [Part.text "weather?"]]
      ∧ (demo_round1_call ∈ (generate env_tool demo_settings "weather?").2
        ∧ "weather?" = "weather?")
      ∧ enhanced_user_query "weather?" ≠ "weather?" :=
  ⟨by decide,
    (initial_history_is_raw_query env_tool demo_settings "weather?").1
      (BackendCall.mk [Content.mk "user" [Part.text "weather?"]] (all_tools demo_settings))
      (by decide),
    ⟨by decide,
      (initial_history_is_raw_query env_tool demo_settings "weather?").2.1
        demo_round1_call (by decide) (Content.mk "user" [Part.text "weather?"]) (by decide)
        (Part.text "weather?") (by decide) "weather?" rfl⟩,
    (initial_history_is_raw_query env_tool demo_settings "weather?").2.2⟩

end AgentSpec
